import Mathlib

/-!
Verification of the browser-side interface of the Legal Aid Student Portal.

The repository is a React frontend. We shallowly embed the pure logic of its
page components and helper modules:

* JavaScript strings become Lean `String`; string truthiness is the test
  against `""`; `a || b` on strings becomes `jsOrStr`; fields that may be
  `null`/`undefined` become `Option String`.
* `String.prototype.trim()` becomes `jsTrim` (drop whitespace from both
  ends); `String.prototype.split(',')` becomes `splitComma` on the character
  list.
* Object literals used as lookup tables become own-property tables
  (`String → Option String`) read through `bracketLookup`, which also models
  the prototype chain of JavaScript bracket access: on a key the literal does
  not own, the lookup falls back to the own properties of
  `Object.prototype` — truthy inherited functions (and the `__proto__`
  accessor) — before yielding `undefined`.
* Each event handler becomes a pure function from the component state it
  reads (plus the server response, when the handler awaits one) to an
  outcome record carrying the HTTP request it issues (`none` when no request
  is made), the error message it shows, and the state/navigation effects.
-/

namespace LegalAid

/-- Whitespace test used by the model of JavaScript `trim()`. -/
def wsChar (c : Char) : Bool := c.isWhitespace

/-- Trim of a character list: drop whitespace from the left with `dropWhile`,
then from the right with `rdropWhile`. -/
def trimChars (l : List Char) : List Char :=
  (l.dropWhile wsChar).rdropWhile wsChar

/-- Model of JavaScript `s.trim()`. -/
def jsTrim (s : String) : String := ⟨trimChars s.data⟩

/-- Model of the JavaScript expression `a || b` for strings: `b` exactly when
`a` is falsy, i.e. the empty string. -/
def jsOrStr (a b : String) : String := if a = "" then b else a

/-- Model of `a || b` where `a` is a string-or-`undefined` value. -/
def jsOrOpt (a : Option String) (b : String) : String :=
  match a with
  | none => b
  | some s => jsOrStr s b

/-- Model of `String.prototype.split(',')` on the character list: always
returns at least one segment, and the empty string splits to `[""]`,
matching JavaScript `split` with a non-empty separator. -/
def splitComma : List Char → List (List Char)
  | [] => [[]]
  | c :: rest =>
    if c = ',' then [] :: splitComma rest
    else
      match splitComma rest with
      | [] => [[c]]
      | h :: t => (c :: h) :: t

/-! ## Helper module (`src/unnamed/part_000`, lines 1-53) -/

/-- Value an expression like `styles[category]` can take: a string stored in
the literal, a truthy non-string property inherited from `Object.prototype`
(a built-in function, or the `__proto__` accessor's object), or `undefined`. -/
inductive JsValue where
  | str (s : String)
  | protoVal (name : String)
  | undefined
deriving DecidableEq

/-- JavaScript truthiness of such a value: `undefined` and the empty string
are falsy; every inherited `Object.prototype` property is a function or an
object, hence truthy. -/
def jsTruthy : JsValue → Bool
  | .str s => s != ""
  | .protoVal _ => true
  | .undefined => false

/-- Model of `a || b` on such values. -/
def jsOrVal (a b : JsValue) : JsValue := if jsTruthy a then a else b

/-- Own-property names of `Object.prototype` in ECMAScript: bracket access on
a plain object literal finds these inherited properties before yielding
`undefined`. -/
def objectProtoKeys : List String :=
  ["constructor", "hasOwnProperty", "isPrototypeOf", "propertyIsEnumerable",
    "toLocaleString", "toString", "valueOf", "__defineGetter__",
    "__defineSetter__", "__lookupGetter__", "__lookupSetter__", "__proto__"]

/-- Model of JavaScript bracket access `obj[key]` on an object literal with
own-property table `own`: an own property wins, then the prototype chain
(`Object.prototype`), then `undefined`. -/
def bracketLookup (own : String → Option String) (key : String) : JsValue :=
  match own key with
  | some v => .str v
  | none => if key ∈ objectProtoKeys then .protoVal key else .undefined

/-- Own-property table of the `styles` object literal of `getCategoryStyle`. -/
def categoryStyles (category : String) : Option String :=
  if category = "fir" then some "category-fir"
  else if category = "rti" then some "category-rti"
  else if category = "consumer" then some "category-consumer"
  else if category = "labour" then some "category-labour"
  else if category = "family" then some "category-family"
  else if category = "property" then some "category-property"
  else if category = "general" then some "category-general"
  else none

/-- Embedding of `getCategoryStyle`: `styles[category] || styles.general`,
with the bracket access resolved through the prototype chain. -/
def getCategoryStyle (category : String) : JsValue :=
  jsOrVal (bracketLookup categoryStyles category) (.str "category-general")

/-- Own-property table of the `labels` object literal of `getCategoryLabel`. -/
def categoryLabels (category : String) : Option String :=
  if category = "fir" then some "FIR / Police"
  else if category = "rti" then some "RTI"
  else if category = "consumer" then some "Consumer"
  else if category = "labour" then some "Labour"
  else if category = "family" then some "Family"
  else if category = "property" then some "Property"
  else if category = "general" then some "General"
  else none

/-- Embedding of `getCategoryLabel`: `labels[category] || category`, with the
bracket access resolved through the prototype chain. -/
def getCategoryLabel (category : String) : JsValue :=
  jsOrVal (bracketLookup categoryLabels category) (.str category)

/-- Own-property table of the `styles` object literal of `getStatusStyle`. -/
def statusStyles (status : String) : Option String :=
  if status = "open" then some "status-open"
  else if status = "assigned" then some "status-assigned"
  else if status = "closed" then some "status-closed"
  else none

/-- Embedding of `getStatusStyle`: `styles[status] || styles.open`, with the
bracket access resolved through the prototype chain. -/
def getStatusStyle (status : String) : JsValue :=
  jsOrVal (bracketLookup statusStyles status) (.str "status-open")

/-- Own-property table of the `labels` object literal of `getLanguageLabel`. -/
def languageLabels (code : String) : Option String :=
  if code = "en" then some "English"
  else if code = "hi" then some "हिंदी"
  else if code = "te" then some "తెలుగు"
  else none

/-- Embedding of `getLanguageLabel`: `labels[code] || code`, with the bracket
access resolved through the prototype chain. -/
def getLanguageLabel (code : String) : JsValue :=
  jsOrVal (bracketLookup languageLabels code) (.str code)

/-- The seven category keys of the lookup tables. -/
def categoryKeys : List String :=
  ["fir", "rti", "consumer", "labour", "family", "property", "general"]

/-- The three status keys of `getStatusStyle`. -/
def statusKeys : List String := ["open", "assigned", "closed"]

/-- The three language codes of `getLanguageLabel`. -/
def languageKeys : List String := ["en", "hi", "te"]

/-- Embedding of `formatDate`. The browser call
`new Date(d).toLocaleDateString` with the fixed en-IN options is a total
external function, abstracted as the parameter `toLocale`; the guard
`if (!dateString) return ''` covers `null`/`undefined` (`none`) and the
empty string. -/
def formatDate (toLocale : String → String) (dateString : Option String) : String :=
  match dateString with
  | none => ""
  | some s => if s = "" then "" else toLocale s

/-- Counterexample to C2 as stated: "constructor" is not one of the seven
known categories, yet `getCategoryStyle` does not return the default
`"category-general"` there — JavaScript bracket access finds the inherited
`Object.prototype.constructor`, which is truthy, so the `||` fallback is
never reached; likewise `getStatusStyle` at "toString" does not return
`"status-open"`. -/
theorem c2_badge_styles_counterexample :
    ("constructor" ∉ categoryKeys ∧
      getCategoryStyle "constructor" ≠ .str "category-general" ∧
      getCategoryStyle "constructor" = .protoVal "constructor") ∧
    ("toString" ∉ statusKeys ∧
      getStatusStyle "toString" ≠ .str "status-open" ∧
      getStatusStyle "toString" = .protoVal "toString") := by decide

/-- C2 amended: on each of the seven known category keys `getCategoryStyle`
returns that key's style class and on each of the three known status keys
`getStatusStyle` returns that key's style class; on every other input that is
not an own property name of `Object.prototype` they return
`"category-general"` and `"status-open"` respectively; on the
`Object.prototype` property names outside the known keys the bracket lookup
returns the inherited truthy property instead of the default. -/
theorem c2_badge_styles_amended (c s : String)
    (hc : c ∉ categoryKeys) (hcp : c ∉ objectProtoKeys)
    (hs : s ∉ statusKeys) (hsp : s ∉ objectProtoKeys) :
    getCategoryStyle c = .str "category-general" ∧
    getStatusStyle s = .str "status-open" ∧
    getCategoryStyle "fir" = .str "category-fir" ∧
    getCategoryStyle "rti" = .str "category-rti" ∧
    getCategoryStyle "consumer" = .str "category-consumer" ∧
    getCategoryStyle "labour" = .str "category-labour" ∧
    getCategoryStyle "family" = .str "category-family" ∧
    getCategoryStyle "property" = .str "category-property" ∧
    getCategoryStyle "general" = .str "category-general" ∧
    getStatusStyle "open" = .str "status-open" ∧
    getStatusStyle "assigned" = .str "status-assigned" ∧
    getStatusStyle "closed" = .str "status-closed" ∧
    getCategoryStyle "constructor" = .protoVal "constructor" ∧
    getStatusStyle "toString" = .protoVal "toString" := by
  simp only [categoryKeys, statusKeys, List.mem_cons, List.not_mem_nil, or_false,
    not_or] at hc hs
  obtain ⟨hc1, hc2, hc3, hc4, hc5, hc6, hc7⟩ := hc
  obtain ⟨hs1, hs2, hs3⟩ := hs
  refine ⟨?_, ?_, by decide, by decide, by decide, by decide, by decide, by decide,
    by decide, by decide, by decide, by decide, by decide, by decide⟩
  · simp [getCategoryStyle, bracketLookup, categoryStyles, jsOrVal, jsTruthy,
      hc1, hc2, hc3, hc4, hc5, hc6, hc7, hcp]
  · simp [getStatusStyle, bracketLookup, statusStyles, jsOrVal, jsTruthy,
      hs1, hs2, hs3, hsp]

/-- Witness for the amended C2: instantiated at the unknown, non-prototype
inputs "criminal" and "pending". -/
theorem c2_badge_styles_amended_witness :
    getCategoryStyle "criminal" = .str "category-general" ∧
    getStatusStyle "pending" = .str "status-open" ∧
    getCategoryStyle "fir" = .str "category-fir" ∧
    getCategoryStyle "rti" = .str "category-rti" ∧
    getCategoryStyle "consumer" = .str "category-consumer" ∧
    getCategoryStyle "labour" = .str "category-labour" ∧
    getCategoryStyle "family" = .str "category-family" ∧
    getCategoryStyle "property" = .str "category-property" ∧
    getCategoryStyle "general" = .str "category-general" ∧
    getStatusStyle "open" = .str "status-open" ∧
    getStatusStyle "assigned" = .str "status-assigned" ∧
    getStatusStyle "closed" = .str "status-closed" ∧
    getCategoryStyle "constructor" = .protoVal "constructor" ∧
    getStatusStyle "toString" = .protoVal "toString" :=
  c2_badge_styles_amended "criminal" "pending"
    (by decide) (by decide) (by decide) (by decide)

/-- Counterexample to C9 as stated: "toString" is not a known category key
and "constructor" is not a known language code, yet neither label function
returns its input there — the bracket lookup finds the inherited truthy
`Object.prototype` property, so the `|| category` / `|| code` fallback is
never reached. -/
theorem c9_labels_identity_counterexample :
    ("toString" ∉ categoryKeys ∧
      getCategoryLabel "toString" ≠ .str "toString" ∧
      getCategoryLabel "toString" = .protoVal "toString") ∧
    ("constructor" ∉ languageKeys ∧
      getLanguageLabel "constructor" ≠ .str "constructor" ∧
      getLanguageLabel "constructor" = .protoVal "constructor") := by decide

/-- C9 amended: `getCategoryLabel` and `getLanguageLabel` act as the identity
on every input that is outside their known keys and is not an own property
name of `Object.prototype`; on the `Object.prototype` property names the
bracket lookup returns the inherited truthy property instead of the input. -/
theorem c9_labels_identity_amended (c l : String)
    (hc : c ∉ categoryKeys) (hcp : c ∉ objectProtoKeys)
    (hl : l ∉ languageKeys) (hlp : l ∉ objectProtoKeys) :
    getCategoryLabel c = .str c ∧ getLanguageLabel l = .str l ∧
    getCategoryLabel "toString" = .protoVal "toString" ∧
    getLanguageLabel "constructor" = .protoVal "constructor" := by
  simp only [categoryKeys, languageKeys, List.mem_cons, List.not_mem_nil, or_false,
    not_or] at hc hl
  obtain ⟨hc1, hc2, hc3, hc4, hc5, hc6, hc7⟩ := hc
  obtain ⟨hl1, hl2, hl3⟩ := hl
  refine ⟨?_, ?_, by decide, by decide⟩
  · simp [getCategoryLabel, bracketLookup, categoryLabels, jsOrVal, jsTruthy,
      hc1, hc2, hc3, hc4, hc5, hc6, hc7, hcp]
  · simp [getLanguageLabel, bracketLookup, languageLabels, jsOrVal, jsTruthy,
      hl1, hl2, hl3, hlp]

/-- Witness for the amended C9: instantiated at the unknown, non-prototype
category "criminal" and language code "fr". -/
theorem c9_labels_identity_amended_witness :
    getCategoryLabel "criminal" = .str "criminal" ∧
    getLanguageLabel "fr" = .str "fr" ∧
    getCategoryLabel "toString" = .protoVal "toString" ∧
    getLanguageLabel "constructor" = .protoVal "constructor" :=
  c9_labels_identity_amended "criminal" "fr"
    (by decide) (by decide) (by decide) (by decide)

/-- C8: `formatDate` returns the empty string on every falsy input (`none`
models `null`/`undefined`, and the empty string), and the locale conversion
of the input on every truthy input; being a total Lean function of a total
`toLocale` parameter, it never throws. -/
theorem c8_formatDate_total (toLocale : String → String) (s : String) (hs : s ≠ "") :
    formatDate toLocale none = "" ∧ formatDate toLocale (some "") = "" ∧
    formatDate toLocale (some s) = toLocale s := by
  refine ⟨rfl, rfl, ?_⟩
  simp [formatDate, hs]

/-- Witness for C8: instantiated at the truthy input "2024-01-05" and a
concrete locale conversion. -/
theorem c8_formatDate_total_witness :
    formatDate (fun _ => "05 Jan 2024") none = "" ∧
    formatDate (fun _ => "05 Jan 2024") (some "") = "" ∧
    formatDate (fun _ => "05 Jan 2024") (some "2024-01-05") = "05 Jan 2024" :=
  c8_formatDate_total (fun _ => "05 Jan 2024") "2024-01-05" (by decide)

/-! ## Trim idempotence, for C10 -/

/-- After dropping a leading block of `p`-elements and then a trailing block,
the result has no leading `p`-element left, so a second left drop is the
identity. -/
theorem dropWhile_of_trimmed (p : Char → Bool) (l : List Char) :
    List.dropWhile p ((l.dropWhile p).rdropWhile p) = (l.dropWhile p).rdropWhile p := by
  rcases h : (l.dropWhile p).rdropWhile p with _ | ⟨c, cs⟩
  · simp
  · obtain ⟨t, ht⟩ := ( List.rdropWhile_prefix p (l.dropWhile p))
    rw [h] at ht
    have hd : l.dropWhile p = c :: (cs ++ t) := by
      rw [← ht]; simp
    have hne : l.dropWhile p ≠ [] := by rw [hd]; simp
    have hpc := List.head_dropWhile_not p l hne
    have hhd : (l.dropWhile p).head hne = c := by simp [hd]
    rw [hhd] at hpc
    simp [List.dropWhile_cons, hpc]

/-- `trimChars` is idempotent. -/
theorem trimChars_idem (l : List Char) : trimChars (trimChars l) = trimChars l := by
  unfold trimChars
  rw [dropWhile_of_trimmed, List.rdropWhile_idempotent]

/-- The model of JavaScript `trim()` is idempotent. -/
theorem jsTrim_idem (s : String) : jsTrim (jsTrim s) = jsTrim s := by
  show (⟨trimChars (trimChars s.data)⟩ : String) = ⟨trimChars s.data⟩
  rw [trimChars_idem]

/-! ## Student portal (`src/unnamed/part_000`, lines 83-208) -/

/-- Form state `newStudent` of the add-student dialog. -/
structure StudentForm where
  name : String
  email : String
  college : String
  skills : String
deriving DecidableEq

/-- Embedding of the skills pipeline in `handleAddStudent`:
`newStudent.skills.split(',').map(s => s.trim()).filter(Boolean)`. -/
def skillsArray (skills : String) : List String :=
  (((splitComma skills.data).map (fun l => (⟨l⟩ : String))).map jsTrim).filter
    (fun s => s != "")

/-- Model of `email.includes(at-sign)`: the separator is a single character,
so substring containment is character containment. -/
def includesAtSign (s : String) : Bool := s.data.contains '@'

/-- Observable outcome of `handleAddStudent`: either a toast error with no
HTTP request, or the POST body sent to `/api/students` (the spread of the
form with `skills` replaced by the split array). -/
inductive AddStudentAction where
  | showError (msg : String)
  | post (name email college : String) (skills : List String)
deriving DecidableEq

/-- Whether the outcome issued the POST. -/
def AddStudentAction.isPost : AddStudentAction → Bool
  | .post _ _ _ _ => true
  | .showError _ => false

/-- Embedding of `handleAddStudent`: the four early-return validation checks
in source order, then the POST to `/api/students`. -/
def handleAddStudent (f : StudentForm) : AddStudentAction :=
  if jsTrim f.name = "" then .showError "Please enter student name"
  else if jsTrim f.email = "" then .showError "Please enter email address"
  else if includesAtSign f.email = false then .showError "Please enter a valid email address"
  else if jsTrim f.college = "" then .showError "Please enter college name"
  else .post f.name f.email f.college (skillsArray f.skills)

/-- C1: `handleAddStudent` issues the POST to `/api/students` exactly when all
client-side checks pass: trimmed name, email and college are non-empty and
the email passes the validity check (`includes` of the at-sign character);
when any check fails only an error message is produced and no request is
made. -/
theorem c1_addStudent_validation (f : StudentForm) :
    ((handleAddStudent f).isPost = true ↔
      (jsTrim f.name ≠ "" ∧ jsTrim f.email ≠ "" ∧ includesAtSign f.email = true ∧
        jsTrim f.college ≠ "")) ∧
    ((handleAddStudent f).isPost = false → ∃ msg, handleAddStudent f = .showError msg) ∧
    ((handleAddStudent f).isPost = true →
      handleAddStudent f = .post f.name f.email f.college (skillsArray f.skills)) := by
  unfold handleAddStudent
  split_ifs with h1 h2 h3 h4 <;>
    simp_all [AddStudentAction.isPost]

/-- Witness for C1: the theorem applied to a fully valid form and, through its
error conjunct, to a form with a blank name. -/
theorem c1_addStudent_validation_witness :
    (handleAddStudent ⟨"Asha", "asha@law.edu", "NLU", "RTI, Drafting"⟩).isPost = true ∧
    (∃ msg, handleAddStudent ⟨" ", "asha@law.edu", "NLU", ""⟩ = .showError msg) :=
  ⟨(c1_addStudent_validation ⟨"Asha", "asha@law.edu", "NLU", "RTI, Drafting"⟩).1.mpr
      (by refine ⟨by decide, by decide, by decide, by decide⟩),
    (c1_addStudent_validation ⟨" ", "asha@law.edu", "NLU", ""⟩).2.1 (by decide)⟩

/-- C10: every element of the posted skills array is a trimmed comma-separated
segment of the input with empty segments removed, hence is non-empty and has
no leading or trailing whitespace (its own trim is itself). -/
theorem c10_skills_array_clean (s x : String) (hx : x ∈ skillsArray s) :
    x ≠ "" ∧ jsTrim x = x := by
  unfold skillsArray at hx
  rw [List.mem_filter] at hx
  obtain ⟨hmem, hne⟩ := hx
  refine ⟨by simpa using hne, ?_⟩
  rw [List.mem_map] at hmem
  obtain ⟨y, _, hy⟩ := hmem
  rw [← hy]
  exact jsTrim_idem y

/-- Witness for C10: the skills input with padding and an empty segment,
instantiated at its first posted element. -/
theorem c10_skills_array_clean_witness :
    ("Criminal Law" : String) ≠ "" ∧ jsTrim "Criminal Law" = "Criminal Law" :=
  c10_skills_array_clean " Criminal Law , ,RTI " "Criminal Law" (by decide)

/-! ## Query page (`src/project/app/frontend/src/pages/QueryPage.jsx`) -/

/-- POST body sent to `/api/queries` by `handleSubmit`. -/
structure QueryPostBody where
  query_text : String
  language : String
deriving DecidableEq

/-- The part of the server response to `/api/queries` that `handleSubmit`
reads: `response.data.id`. -/
structure QueryServerResp where
  id : String
deriving DecidableEq

/-- Observable outcome of one run of `handleSubmit`: the request issued (if
any), the toast error (if any), and the navigation target (if any). -/
structure SubmitOutcome where
  request : Option QueryPostBody
  error : Option String
  navigate : Option String
deriving DecidableEq

/-- Embedding of `handleSubmit` of the query page. The `serverResp` parameter
is the awaited response of the POST: `some` on success, `none` when the
request rejects (the catch branch). -/
def handleSubmitQuery (queryText language : String)
    (serverResp : Option QueryServerResp) : SubmitOutcome :=
  if jsTrim queryText = "" then
    { request := none, error := some "Please enter your legal query", navigate := none }
  else
    match serverResp with
    | some resp =>
        { request := some { query_text := queryText, language := language },
          error := none,
          navigate := some ("/response/" ++ resp.id) }
    | none =>
        { request := some { query_text := queryText, language := language },
          error := some "Failed to process query. Please try again.",
          navigate := none }

/-- C3: `handleSubmit` POSTs `{query_text, language}` to `/api/queries` if and
only if the trimmed query text is non-empty; on whitespace-only input an
error is shown and no request or navigation happens, and on a successful
response the app navigates to `/response/` followed by the returned id. -/
theorem c3_query_submit (queryText language : String)
    (serverResp : Option QueryServerResp) :
    ((handleSubmitQuery queryText language serverResp).request ≠ none ↔
      jsTrim queryText ≠ "") ∧
    (jsTrim queryText ≠ "" →
      (handleSubmitQuery queryText language serverResp).request =
        some { query_text := queryText, language := language }) ∧
    (jsTrim queryText = "" →
      handleSubmitQuery queryText language serverResp =
        { request := none, error := some "Please enter your legal query",
          navigate := none }) ∧
    (∀ resp, serverResp = some resp → jsTrim queryText ≠ "" →
      (handleSubmitQuery queryText language serverResp).navigate =
        some ("/response/" ++ resp.id)) := by
  unfold handleSubmitQuery
  by_cases h : jsTrim queryText = "" <;>
    cases serverResp <;> simp_all

/-- Witness for C3: a non-blank query with a successful server response, and
the whitespace-only query through the error conjunct. -/
theorem c3_query_submit_witness :
    (handleSubmitQuery "How do I file an FIR?" "en" (some ⟨"q1"⟩)).navigate =
      some "/response/q1" ∧
    handleSubmitQuery "   " "en" none =
      { request := none, error := some "Please enter your legal query",
        navigate := none } :=
  ⟨(c3_query_submit "How do I file an FIR?" "en" (some ⟨"q1"⟩)).2.2.2 ⟨"q1"⟩ rfl
      (by decide),
    (c3_query_submit "   " "en" none).2.2.1 (by decide)⟩

/-- The component state of `QueryPage` that governs submission, plus a ghost
counter of the POSTs to `/api/queries` currently in flight. -/
structure QPState where
  queryText : String
  isSubmitting : Bool
  inFlight : Nat
deriving DecidableEq

/-- Initial state of `QueryPage`: `useState('')` and `useState(false)`. -/
def qpInit : QPState := { queryText := "", isSubmitting := false, inFlight := 0 }

/-- Whether the submit button accepts a click: the source disables it with
`disabled={isSubmitting || !queryText.trim()}`. -/
def submitEnabled (st : QPState) : Bool :=
  !st.isSubmitting && !(jsTrim st.queryText == "")

/-- Event-step relation of the query page, as far as POSTs to `/api/queries`
are concerned. Typing changes the text; a click on the enabled submit button
runs `handleSubmit`, which re-checks the trimmed text and otherwise sets
`isSubmitting` and starts the request; the `finally` block of a completed
request clears `isSubmitting`. -/
inductive QPStep : QPState → QPState → Prop
  | setText (st : QPState) (s : String) :
      QPStep st { st with queryText := s }
  | clickSubmit (st : QPState) (h : submitEnabled st = true) :
      QPStep st
        (if jsTrim st.queryText = "" then st
         else { st with isSubmitting := true, inFlight := st.inFlight + 1 })
  | requestDone (st : QPState) (h : 0 < st.inFlight) :
      QPStep st { st with isSubmitting := false, inFlight := st.inFlight - 1 }

/-- States of the query page reachable from the initial render. -/
inductive QPReachable : QPState → Prop
  | init : QPReachable qpInit
  | step {s t : QPState} : QPReachable s → QPStep s t → QPReachable t

/-- Every event step preserves the flight invariant: at most one request is
in flight and a request in flight forces `isSubmitting`. -/
theorem qpInv_step {s t : QPState} (hs : QPStep s t)
    (ih : s.inFlight ≤ 1 ∧ (0 < s.inFlight → s.isSubmitting = true)) :
    t.inFlight ≤ 1 ∧ (0 < t.inFlight → t.isSubmitting = true) := by
  cases hs with
  | setText s' => exact ih
  | clickSubmit hen =>
    by_cases ht : jsTrim s.queryText = ""
    · simpa [ht] using ih
    · have hsub : s.isSubmitting = false := by
        simp [submitEnabled] at hen
        exact hen.1
      have hz : s.inFlight = 0 := by
        rcases Nat.eq_zero_or_pos s.inFlight with h0 | hp
        · exact h0
        · exact absurd (ih.2 hp) (by simp [hsub])
      simp [ht, hz]
  | requestDone hp =>
    refine ⟨Nat.le_trans (Nat.sub_le _ _) ih.1, ?_⟩
    intro hgt
    exfalso
    have hgt2 : 0 < s.inFlight - 1 := hgt
    have h1 : s.inFlight ≤ 1 := ih.1
    omega

/-- C4: from every reachable state of the query page at most one POST to
`/api/queries` is in flight, and while one is in flight the submit button is
disabled, so a second POST can never be started. -/
theorem c4_single_flight (st : QPState) (h : QPReachable st) :
    st.inFlight ≤ 1 ∧ (0 < st.inFlight → submitEnabled st = false) := by
  have inv : st.inFlight ≤ 1 ∧ (0 < st.inFlight → st.isSubmitting = true) := by
    induction h with
    | init => exact ⟨by decide, fun hp => absurd hp (by decide)⟩
    | step hr hs ih => exact qpInv_step hs ih
  refine ⟨inv.1, fun hp => ?_⟩
  have := inv.2 hp
  simp [submitEnabled, this]

/-- Witness for C4: the state right after a submit of "hi" (one request in
flight) is reachable, and there the button is disabled. -/
theorem c4_single_flight_witness :
    ({ queryText := "hi", isSubmitting := true, inFlight := 1 } : QPState).inFlight ≤ 1 ∧
    (0 < ({ queryText := "hi", isSubmitting := true, inFlight := 1 } : QPState).inFlight →
      submitEnabled { queryText := "hi", isSubmitting := true, inFlight := 1 } = false) :=
  c4_single_flight _ (by
    have h1 : QPReachable { queryText := "hi", isSubmitting := false, inFlight := 0 } :=
      QPReachable.step QPReachable.init (QPStep.setText qpInit "hi")
    have h2 := QPStep.clickSubmit
      { queryText := "hi", isSubmitting := false, inFlight := 0 } (by decide)
    rw [if_neg (by decide : ¬ jsTrim "hi" = "")] at h2
    exact QPReachable.step h1 h2)

/-! ## Documents page (`src/unnamed/part_001`, lines 21-103) -/

/-- The fields of the selected form that `handleGenerateDocument` reads by
name (`details.name`, `details.address`); the remaining key/value pairs of
the form state are carried opaquely in `otherFields` since validation never
reads them and the POST body spreads them unchanged. -/
structure DocDetails where
  name : String
  address : String
  otherFields : List (String × String)
deriving DecidableEq

/-- POST body sent to `/api/documents`: the spread of the selected details
plus `doc_type`, `language`, `current_date` and the derived `place`. -/
structure DocRequest where
  doc_type : String
  language : String
  name : String
  address : String
  otherFields : List (String × String)
  current_date : String
  place : String
deriving DecidableEq

/-- Derived `place` field: `details.address.split(',')[0] || 'Your City'`. -/
def placeOf (address : String) : String :=
  jsOrStr (⟨(splitComma address.data).headD []⟩ : String) "Your City"

/-- Server response to `/api/documents` as used by the page. -/
structure GeneratedDoc where
  content : String
deriving DecidableEq

/-- Component state of `DocumentsPage` read or written by
`handleGenerateDocument`. -/
structure DocPageState where
  docType : String
  language : String
  firDetails : DocDetails
  rtiDetails : DocDetails
  generatedDoc : Option GeneratedDoc
deriving DecidableEq

/-- The form the handler validates and posts:
`docType === 'FIR' ? firDetails : rtiDetails`. -/
def selectedDetails (st : DocPageState) : DocDetails :=
  if st.docType = "FIR" then st.firDetails else st.rtiDetails

/-- Observable outcome of one run of `handleGenerateDocument`. -/
structure GenOutcome where
  state : DocPageState
  request : Option DocRequest
  error : Option String
deriving DecidableEq

/-- Embedding of `handleGenerateDocument`. `today` stands for
`new Date().toISOString().split('T')[0]`; `serverResp` is the awaited
response of the POST, `none` modelling the catch branch. -/
def handleGenerateDocument (st : DocPageState) (today : String)
    (serverResp : Option GeneratedDoc) : GenOutcome :=
  let details := selectedDetails st
  if details.name = "" ∨ details.address = "" then
    { state := st, request := none,
      error := some "Please fill in at least your name and address" }
  else
    let req : DocRequest :=
      { doc_type := st.docType, language := st.language,
        name := details.name, address := details.address,
        otherFields := details.otherFields,
        current_date := today, place := placeOf details.address }
    match serverResp with
    | some doc =>
        { state := { st with generatedDoc := some doc },
          request := some req, error := none }
    | none =>
        { state := st, request := some req,
          error := some "Failed to generate document" }

/-- C5: `handleGenerateDocument` POSTs to `/api/documents` if and only if the
name and address of the selected form (FIR details when the doc type is FIR,
RTI details otherwise) are both non-empty; when validation fails an error is
shown, no request is made and the whole state, `generatedDoc` included, is
unchanged. -/
theorem c5_generate_document (st : DocPageState) (today : String)
    (serverResp : Option GeneratedDoc) :
    ((handleGenerateDocument st today serverResp).request ≠ none ↔
      ((selectedDetails st).name ≠ "" ∧ (selectedDetails st).address ≠ "")) ∧
    (((selectedDetails st).name = "" ∨ (selectedDetails st).address = "") →
      handleGenerateDocument st today serverResp =
        { state := st, request := none,
          error := some "Please fill in at least your name and address" }) ∧
    (((selectedDetails st).name = "" ∨ (selectedDetails st).address = "") →
      (handleGenerateDocument st today serverResp).state.generatedDoc =
        st.generatedDoc) := by
  unfold handleGenerateDocument
  by_cases h : (selectedDetails st).name = "" ∨ (selectedDetails st).address = "" <;>
    cases serverResp <;> simp_all <;> tauto

/-- Witness for C5: a valid FIR form issues the request; a blank-name RTI form
leaves the state untouched with an error. -/
theorem c5_generate_document_witness :
    ((handleGenerateDocument
        { docType := "FIR", language := "en",
          firDetails := ⟨"Asha", "12 Court Rd, Delhi", []⟩,
          rtiDetails := ⟨"", "", []⟩, generatedDoc := none }
        "2024-01-05" (some ⟨"doc"⟩)).request ≠ none) ∧
    handleGenerateDocument
        { docType := "RTI", language := "en",
          firDetails := ⟨"Asha", "12 Court Rd, Delhi", []⟩,
          rtiDetails := ⟨"", "12 Court Rd", []⟩, generatedDoc := none }
        "2024-01-05" (some ⟨"doc"⟩) =
      { state :=
          { docType := "RTI", language := "en",
            firDetails := ⟨"Asha", "12 Court Rd, Delhi", []⟩,
            rtiDetails := ⟨"", "12 Court Rd", []⟩, generatedDoc := none },
        request := none,
        error := some "Please fill in at least your name and address" } :=
  ⟨(c5_generate_document
        { docType := "FIR", language := "en",
          firDetails := ⟨"Asha", "12 Court Rd, Delhi", []⟩,
          rtiDetails := ⟨"", "", []⟩, generatedDoc := none }
        "2024-01-05" (some ⟨"doc"⟩)).1.mpr ⟨by decide, by decide⟩,
    (c5_generate_document
        { docType := "RTI", language := "en",
          firDetails := ⟨"Asha", "12 Court Rd, Delhi", []⟩,
          rtiDetails := ⟨"", "12 Court Rd", []⟩, generatedDoc := none }
        "2024-01-05" (some ⟨"doc"⟩)).2.1 (Or.inl (by decide))⟩

/-! ## Response page (`src/unnamed/part_001`, lines 461-516) and audio
playback (`src/project/app/frontend/src/components/AudioPlayer.jsx`) -/

/-- The fields of the `/api/queries/:id` response object that
`playTextToSpeech` reads; `response_text` and `detected_language` may be
absent. -/
structure QueryData where
  query_text : String
  category : String
  response_text : Option String
  detected_language : Option String
  created_at : Option String
deriving DecidableEq

/-- POST body sent to `/api/text-to-speech` by `playTextToSpeech`. -/
structure TtsRequest where
  text : String
  language : String
deriving DecidableEq

/-- Embedding of `playTextToSpeech`: the guard `if (!query?.response_text)
return` makes no request when `query` is null or `response_text` is falsy;
otherwise the body is `{text: query.response_text,
language: query.detected_language || 'en'}`. -/
def playTextToSpeech (q : Option QueryData) : Option TtsRequest :=
  match q with
  | none => none
  | some qd =>
    match qd.response_text with
    | none => none
    | some t =>
      if t = "" then none
      else some { text := t, language := jsOrOpt qd.detected_language "en" }

/-- Source an HTML audio element plays: either a blob URL created from bytes
the client received, or a plain remote URL. -/
inductive AudioSrc where
  | blobUrl (data : List Nat)
  | remote (url : String)
deriving DecidableEq

/-- Whether an audio source is a blob URL. -/
def AudioSrc.isBlob : AudioSrc → Bool
  | .blobUrl _ => true
  | .remote _ => false

/-- Audio source of the TTS playback path: `new Blob([response.data])`,
`URL.createObjectURL`, `new Audio(audioUrl)` — a blob URL over exactly the
bytes the server returned, with no local synthesis. -/
def ttsAudioSrc (serverData : List Nat) : AudioSrc := .blobUrl serverData

/-- Audio element `src` of the `AudioPlayer` component:
the template literal over `BACKEND_URL` and `audioId`. -/
def audioPlayerSrc (backendUrl audioId : String) : AudioSrc :=
  .remote (backendUrl ++ "/api/audio/" ++ audioId)

/-- C6: `playTextToSpeech` makes no request when the query is null or its
`response_text` is falsy; otherwise it POSTs exactly the response text with
`detected_language || 'en'` to `/api/text-to-speech`, and what it plays is a
blob over exactly the bytes the server returns. -/
theorem c6_tts_server_side (qd : QueryData) (data : List Nat) :
    playTextToSpeech none = none ∧
    ((qd.response_text = none ∨ qd.response_text = some "") →
      playTextToSpeech (some qd) = none) ∧
    (∀ t, qd.response_text = some t → t ≠ "" →
      playTextToSpeech (some qd) =
        some { text := t, language := jsOrOpt qd.detected_language "en" }) ∧
    ttsAudioSrc data = .blobUrl data := by
  refine ⟨rfl, ?_, ?_, rfl⟩
  · rintro (h | h) <;> simp [playTextToSpeech, h]
  · intro t ht hne
    simp [playTextToSpeech, ht, hne]

/-- Witness for C6: a query with a response text and no detected language
posts the text with the default language en, and a query without response
text is silent. -/
theorem c6_tts_server_side_witness :
    playTextToSpeech
        (some ⟨"q", "general", some "File an FIR at the station.", none, none⟩) =
      some { text := "File an FIR at the station.", language := "en" } ∧
    playTextToSpeech (some ⟨"q", "general", none, some "hi", none⟩) = none :=
  ⟨(c6_tts_server_side ⟨"q", "general", some "File an FIR at the station.", none, none⟩
        []).2.2.1 "File an FIR at the station." rfl (by decide),
    (c6_tts_server_side ⟨"q", "general", none, some "hi", none⟩ []).2.1 (Or.inl rfl)⟩

/-- Counterexample to C7 as stated: the `AudioPlayer` component's audio
element src for audio id "a1" is not a blob URL — it is the remote URL
`/api/audio/a1` under the backend origin. -/
theorem c7_audio_blob_counterexample :
    (audioPlayerSrc "http://backend" "a1").isBlob = false := rfl

/-- C7 amended: the TTS playback paths play an audio element over a blob URL
built from the bytes the server returned, but the `AudioPlayer` component
sets its audio element src directly to the remote URL
`BACKEND_URL ++ "/api/audio/" ++ audioId`, which is not a blob URL. -/
theorem c7_audio_src_amended (backendUrl audioId : String) (data : List Nat) :
    (ttsAudioSrc data = .blobUrl data ∧ (ttsAudioSrc data).isBlob = true) ∧
    (audioPlayerSrc backendUrl audioId =
        .remote (backendUrl ++ "/api/audio/" ++ audioId) ∧
      (audioPlayerSrc backendUrl audioId).isBlob = false) :=
  ⟨⟨rfl, rfl⟩, ⟨rfl, rfl⟩⟩

end LegalAid
